import Mathlib

/-!
Shallow embedding of `tprune` (src/main.go), a retention-policy-driven
pruning tool for a Twitter account.  The embedding models:

* Go 64-bit integer arithmetic where overflow matters (`int64wrap` for
  wrapping multiplication/subtraction, `int64sat` for `time.Time.Sub`
  saturation),
* `strconv.Atoi`, `strings.Contains`, `strings.Split`, `http.Header.Get`,
* the `config.validate`, `backOff`, `retention.isTombstoned`,
  `tweetFetcher.fetch`, `favoriteFetcher.fetch`, `destroyer.destroyTweet`,
  `destroyer.destroyFavorite` functions and the `run` driver loops.

Remote API calls are modelled by supplying their results as inputs: each
fetch step receives the `APIResult` the Twitter client would return for the
request issued at the current cursor, and each delete receives a
`DestroyResult`.  `time.Sleep` is modelled by returning the duration passed
to it (`sleptFor` gives the actual wait, which Go documents as zero for
non-positive durations).  Go `error` values are modelled as `String`
messages; `fmt.Errorf` wrapping becomes string concatenation.  The external
library call `t.CreatedAtTime()` (timestamp parsing) is modelled by storing
its result, `Except String Int` (nanoseconds since epoch), on the tweet.
-/

namespace TPrune

/-! ### Go integer and string primitives -/

/-- Wrap an unbounded integer into the two's-complement `int64` range,
modelling Go's defined wrapping overflow for signed 64-bit arithmetic. -/
def int64wrap (n : Int) : Int :=
  (n + 2 ^ 63) % 2 ^ 64 - 2 ^ 63

/-- Saturate an unbounded integer into the `int64` range, modelling
Go's `time.Time.Sub`, which clamps to the minimum/maximum `Duration`. -/
def int64sat (n : Int) : Int :=
  max (-(2 ^ 63)) (min n (2 ^ 63 - 1))

/-- Decimal digit run parser: `some` of the value when every character is a
digit and the run is non-empty, `none` otherwise. -/
def parseDigits (cs : List Char) : Option Nat :=
  if cs.isEmpty then none
  else
    cs.foldl
      (fun acc c =>
        match acc with
        | none => none
        | some n => if c.isDigit then some (n * 10 + (c.toNat - 48)) else none)
      (some 0)

/-- Go `strconv.Atoi`: optional sign followed by decimal digits, rejected
(`none`, i.e. a non-nil error) when empty, malformed, or out of the
`int64` range. -/
def atoi (s : String) : Option Int :=
  match s.toList with
  | '+' :: rest =>
    (parseDigits rest).bind fun n =>
      if (n : Int) ≤ 2 ^ 63 - 1 then some (n : Int) else none
  | '-' :: rest =>
    (parseDigits rest).bind fun n =>
      if (n : Int) ≤ 2 ^ 63 then some (-(n : Int)) else none
  | cs =>
    (parseDigits cs).bind fun n =>
      if (n : Int) ≤ 2 ^ 63 - 1 then some (n : Int) else none

/-- Is `sub` a contiguous infix of `l`?  Executable helper for
`strContains`. -/
def listInfix (sub : List Char) : List Char → Bool
  | [] => sub.isEmpty
  | c :: rest => sub.isPrefixOf (c :: rest) || listInfix sub rest

/-- Go `strings.Contains s sub`: `sub` occurs in `s` as a contiguous
(case-sensitive) substring. -/
def strContains (s sub : String) : Bool :=
  listInfix sub.toList s.toList

/-- Go `http.Header.Get`: first value stored under the key, or the empty
string when the key is absent. -/
def headerGet (h : List (String × String)) (k : String) : String :=
  match h.find? (fun p => p.1 == k) with
  | some p => p.2
  | none => ""

/-! ### Data model -/

/-- A tweet (post or favorite — same shape).  `createdAt` holds the result
of the external library's `CreatedAtTime()` timestamp parse: nanoseconds
since epoch on success, the parse error otherwise. -/
structure Tweet where
  id : Int
  text : String
  createdAt : Except String Int


/-- HTTP response metadata: status code and headers. -/
structure Response where
  statusCode : Int
  header : List (String × String)


/-- Result of one remote list call: item batch, response metadata, and the
error (`none` means success). -/
structure APIResult where
  tweets : List Tweet
  resp : Response
  err : Option String


/-- Result of one remote delete call: response metadata and the error. -/
structure DestroyResult where
  resp : Response
  err : Option String


/-! ### backOff -/

/-- Nanoseconds per second, the value of Go's `time.Second`. -/
def nsPerSecond : Int := 1000000000

/-- `backOff` (src/main.go:328): parse the `X-Rate-Limit-Reset` header with
`strconv.Atoi`; on failure return the parse error (no sleep); on success
sleep `time.Duration(reset) * time.Second` and return nil.  The model
returns the duration handed to `time.Sleep`, including Go's wrapping
`int64` multiplication. -/
def backOff (header : List (String × String)) : Except String Int :=
  match atoi (headerGet header "X-Rate-Limit-Reset") with
  | none => Except.error "strconv.Atoi: parsing X-Rate-Limit-Reset: invalid syntax"
  | some reset => Except.ok (int64wrap (reset * nsPerSecond))

/-- Actual wait performed by Go's `time.Sleep` for a requested duration:
a non-positive duration returns immediately (sleeps no time). -/
def sleptFor (d : Int) : Int := max d 0

/-! ### Retention policy -/

/-- The retention policy (src/main.go:338): kept ids, kept keywords, and a
maximum age in nanoseconds (`time.Duration`). -/
structure Retention where
  ids : List Int
  keywords : List String
  maxAge : Int


/-- `retention.isTombstoned` (src/main.go:345): decide whether a tweet is
evicted (`true`) or kept (`false`); fails exactly when the timestamp parse
failed.  Age is `now.Sub(createdAt)`, which saturates at the `int64`
bounds. -/
def Retention.isTombstoned (r : Retention) (t : Tweet) (now : Int) :
    Except String Bool :=
  match t.createdAt with
  | Except.error e => Except.error e
  | Except.ok createdAt =>
    let age := int64sat (now - createdAt)
    if age < r.maxAge then Except.ok false
    else if r.ids.any (fun id => id == t.id) then Except.ok false
    else if r.keywords.any (fun keyword => strContains t.text keyword) then
      Except.ok false
    else Except.ok true

/-- Go `strings.Split cs ","` over character lists: cut around every comma,
keeping empty fields (so consecutive, leading or trailing commas produce
empty strings). -/
def splitOnComma : List Char → List (List Char)
  | [] => [[]]
  | c :: rest =>
    if c == ',' then [] :: splitOnComma rest
    else
      match splitOnComma rest with
      | [] => [[c]]
      | grp :: grps => (c :: grp) :: grps

/-- `parseKeepKeywords` (src/main.go:383): empty input yields no keywords,
otherwise split on commas (Go `strings.Split v ","`). -/
def parseKeepKeywords (v : String) : List String :=
  if v.length == 0 then []
  else (splitOnComma v.toList).map (fun grp => String.mk grp)

/-! ### Configuration -/

/-- The flag-derived configuration (src/main.go:62). -/
structure Config where
  username : String
  consumerKey : String
  consumerSecret : String
  oauthToken : String
  oauthTokenSecret : String
  retention : Retention
  logLevel : String


/-- `config.validate` (src/main.go:70): `some` error message when a
required field is missing, `none` when the configuration is accepted. -/
def Config.validate (cfg : Config) : Option String :=
  if cfg.username == "" then some "-username is required"
  else if cfg.consumerKey == "" then some "-consumer-key is required"
  else if cfg.consumerSecret == "" then some "-consumer-secret is required"
  else if cfg.oauthToken == "" then some "-oauth-token is required"
  else if cfg.oauthTokenSecret == "" then some "-oauth-token-secret is required"
  else if cfg.retention.maxAge == 0 then some "-max-age is required"
  else none

/-! ### Fetchers -/

/-- Mutable state shared by `tweetFetcher` and `favoriteFetcher`: the
pagination cursor plus the side-channel `tweets` and `err` fields. -/
structure FetcherState where
  maxID : Int
  tweets : List Tweet
  err : Option String


/-- Fetcher state at construction (`newTweetFetcher` / `newFavoriteFetcher`):
zero cursor, no stored tweets, no stored error. -/
def initFetcher : FetcherState :=
  { maxID := 0, tweets := [], err := none }

/-- `tweetFetcher.fetch` (src/main.go:167).  `r` is the result the client
returns for the `UserTimeline` request issued at the current cursor (200
items requested, `MaxID = maxID`).  The batch is stored first; a non-429
error is recorded and the step returns `false`; a 429 triggers `backOff`
(a backoff parse failure is recorded and the step returns `false`);
otherwise a non-empty batch moves the cursor to the last item's id minus
one (wrapping `int64` subtraction) and returns `true`, and an empty batch
returns `false`. -/
def tweetFetcherFetch (f : FetcherState) (r : APIResult) :
    FetcherState × Bool :=
  let f := { f with tweets := r.tweets }
  match r.err with
  | some e =>
    if r.resp.statusCode == 429 then
      match backOff r.resp.header with
      | Except.error be =>
        ({ f with err := some ("failed to back off: " ++ be) }, false)
      | Except.ok _ =>
        match f.tweets.getLast? with
        | some t => ({ f with maxID := int64wrap (t.id - 1) }, true)
        | none => (f, false)
    else
      ({ f with err := some ("failed to fetch tweets: " ++ e) }, false)
  | none =>
    match f.tweets.getLast? with
    | some t => ({ f with maxID := int64wrap (t.id - 1) }, true)
    | none => (f, false)

/-- `favoriteFetcher.fetch` (src/main.go:223): textually the same logic as
`tweetFetcher.fetch`, against the `Favorites.List` endpoint. -/
def favoriteFetcherFetch (f : FetcherState) (r : APIResult) :
    FetcherState × Bool :=
  let f := { f with tweets := r.tweets }
  match r.err with
  | some e =>
    if r.resp.statusCode == 429 then
      match backOff r.resp.header with
      | Except.error be =>
        ({ f with err := some ("failed to back off: " ++ be) }, false)
      | Except.ok _ =>
        match f.tweets.getLast? with
        | some t => ({ f with maxID := int64wrap (t.id - 1) }, true)
        | none => (f, false)
    else
      ({ f with err := some ("failed to fetch tweets: " ++ e) }, false)
  | none =>
    match f.tweets.getLast? with
    | some t => ({ f with maxID := int64wrap (t.id - 1) }, true)
    | none => (f, false)

/-! ### Destroyer -/

/-- `destroyer.destroyTweet` (src/main.go:269).  `dr` is the result the
client would return for `Statuses.Destroy t.ID`.  A timestamp-parse error
propagates; a kept tweet is logged and succeeds; an evicted tweet issues
the delete: a 429 response backs off (backoff parse failure is an error,
successful backoff returns nil), any other error propagates unwrapped. -/
def destroyTweet (ret : Retention) (now : Int) (t : Tweet)
    (dr : DestroyResult) : Except String Unit :=
  match ret.isTombstoned t now with
  | Except.error e => Except.error e
  | Except.ok evict =>
    if !evict then Except.ok ()
    else
      match dr.err with
      | some e =>
        if dr.resp.statusCode == 429 then
          match backOff dr.resp.header with
          | Except.error be => Except.error ("failed to back off: " ++ be)
          | Except.ok _ => Except.ok ()
        else Except.error e
      | none => Except.ok ()

/-- `destroyer.destroyFavorite` (src/main.go:297): same logic as
`destroyTweet`, against the `Favorites.Destroy` endpoint. -/
def destroyFavorite (ret : Retention) (now : Int) (t : Tweet)
    (dr : DestroyResult) : Except String Unit :=
  match ret.isTombstoned t now with
  | Except.error e => Except.error e
  | Except.ok evict =>
    if !evict then Except.ok ()
    else
      match dr.err with
      | some e =>
        if dr.resp.statusCode == 429 then
          match backOff dr.resp.header with
          | Except.error be => Except.error ("failed to back off: " ++ be)
          | Except.ok _ => Except.ok ()
        else Except.error e
      | none => Except.ok ()

/-! ### The run driver (src/main.go:92)

The two loops in `run` are driven by a finite script of `APIResult`s (one
per fetch request, in order) and an oracle mapping a tweet id to the
result of its delete call. -/

/-- Inner loop of `run` over one fetched page: destroy each tweet in turn,
wrapping a failure as `failed to delete`. -/
def processTweets (ret : Retention) (now : Int)
    (delRes : Int → DestroyResult) : List Tweet → Except String Unit
  | [] => Except.ok ()
  | t :: rest =>
    match destroyTweet ret now t (delRes t.id) with
    | Except.error e => Except.error ("failed to delete: " ++ e)
    | Except.ok _ => processTweets ret now delRes rest

/-- Inner loop of `run` over one fetched favorites page. -/
def processFavorites (ret : Retention) (now : Int)
    (delRes : Int → DestroyResult) : List Tweet → Except String Unit
  | [] => Except.ok ()
  | t :: rest =>
    match destroyFavorite ret now t (delRes t.id) with
    | Except.error e => Except.error ("failed to delete: " ++ e)
    | Except.ok _ => processFavorites ret now delRes rest

/-- The `for tweetFetcher.fetch()` loop of `run` (src/main.go:118): while
`fetch` returns `true`, check the stored error (wrapping it as
`failed to fetch`), then destroy every tweet of the page.  Returns the
final fetcher state when the loop exits normally. -/
def tweetLoop (ret : Retention) (now : Int) (delRes : Int → DestroyResult) :
    List APIResult → FetcherState → Except String FetcherState
  | [], f => Except.ok f
  | r :: script, f =>
    match tweetFetcherFetch f r with
    | (f, false) => Except.ok f
    | (f, true) =>
      match f.err with
      | some e => Except.error ("failed to fetch: " ++ e)
      | none =>
        match processTweets ret now delRes f.tweets with
        | Except.error e => Except.error e
        | Except.ok _ => tweetLoop ret now delRes script f

/-- The `for favoriteFetcher.fetch()` loop of `run` (src/main.go:129). -/
def favoriteLoop (ret : Retention) (now : Int)
    (delRes : Int → DestroyResult) :
    List APIResult → FetcherState → Except String FetcherState
  | [], f => Except.ok f
  | r :: script, f =>
    match favoriteFetcherFetch f r with
    | (f, false) => Except.ok f
    | (f, true) =>
      match f.err with
      | some e => Except.error ("failed to fetch: " ++ e)
      | none =>
        match processFavorites ret now delRes f.tweets with
        | Except.error e => Except.error e
        | Except.ok _ => favoriteLoop ret now delRes script f

/-- The core of `run` after client construction: drain the tweet loop, then
the favorites loop; the first error aborts the run. -/
def runModel (ret : Retention) (now : Int)
    (tweetDel favDel : Int → DestroyResult)
    (tweetScript favScript : List APIResult) : Except String Unit :=
  match tweetLoop ret now tweetDel tweetScript initFetcher with
  | Except.error e => Except.error e
  | Except.ok _ =>
    match favoriteLoop ret now favDel favScript initFetcher with
    | Except.error e => Except.error e
    | Except.ok _ => Except.ok ()

/-! ### Reference retention decision (for comparison with the source) -/

/-- A retention decision: keep the item or evict (delete) it. -/
inductive Decision
  | keep
  | evict
  deriving DecidableEq

/-- Reference retention decision, transcribed from the specification's
rule list (claim C3): keep when younger than `maxAge`; otherwise keep when
the id is in the kept-id set; otherwise keep when the body contains a kept
keyword as a case-sensitive substring; otherwise evict.  This definition
follows the spec's words, to be compared with `Retention.isTombstoned`,
which is embedded from the source. -/
def decideSpec (maxAge : Int) (keepIDs : List Int) (keepKeywords : List String)
    (id createdAt now : Int) (body : String) : Decision :=
  if now - createdAt < maxAge then Decision.keep
  else if id ∈ keepIDs then Decision.keep
  else if keepKeywords.any (fun keyword => strContains body keyword) then
    Decision.keep
  else Decision.evict

/-! ### Helper lemmas -/

/-- `int64wrap` is the identity on values already inside the `int64`
range. -/
theorem int64wrap_eq_self {n : Int} (hlo : -(2 ^ 63) ≤ n)
    (hhi : n ≤ 2 ^ 63 - 1) : int64wrap n = n := by
  unfold int64wrap
  rw [Int.emod_eq_of_lt (by omega) (by omega)]
  omega

/-- `int64sat` is the identity on values already inside the `int64`
range. -/
theorem int64sat_eq_self {n : Int} (hlo : -(2 ^ 63) ≤ n)
    (hhi : n ≤ 2 ^ 63 - 1) : int64sat n = n := by
  unfold int64sat
  rw [min_eq_left hhi, max_eq_right hlo]

/-- The empty character list is an infix of every list. -/
theorem listInfix_nil (l : List Char) : listInfix [] l = true := by
  cases l <;> rfl

/-- Go `strings.Contains s ""` is true for every `s`: every string contains
the empty substring. -/
theorem strContains_empty (s : String) : strContains s "" = true :=
  listInfix_nil s.toList

/-- In a list sorted by nonincreasing id, the last element's id is minimal. -/
theorem getLast_id_min {l : List Tweet} {t : Tweet}
    (hs : l.Pairwise (fun a b => b.id ≤ a.id)) (hl : l.getLast? = some t) :
    ∀ u ∈ l, t.id ≤ u.id := by
  induction l with
  | nil => simp at hl
  | cons a l ih =>
    rcases List.pairwise_cons.mp hs with ⟨ha, hs'⟩
    cases l with
    | nil =>
      intro u hu
      simp only [List.getLast?_singleton, Option.some.injEq] at hl
      simp only [List.mem_singleton] at hu
      subst hl; subst hu; exact le_refl _
    | cons b m =>
      have hl' : (b :: m).getLast? = some t := by
        rwa [List.getLast?_cons_cons] at hl
      intro u hu
      rcases List.mem_cons.mp hu with huA | hu'
      · subst huA
        have htmem : t ∈ b :: m := by
          rcases List.mem_getLast?_eq_getLast (Option.mem_def.mpr hl') with
            ⟨hne, hEq⟩
          rw [hEq]
          exact List.getLast_mem hne
        exact ha t htmem
      · exact ih hs' hl' u hu'

/-! ### Concrete fixtures -/

/-- A plain 200 response with no headers. -/
def okResp : Response := { statusCode := 200, header := [] }

/-- A delete oracle whose every call succeeds. -/
def okDelete : Int → DestroyResult :=
  fun _ => { resp := okResp, err := none }

/-- One hour in nanoseconds (`time.Hour`). -/
def hourNs : Int := 3600000000000

/-- Claim C3's scenario policy: maxAge 24h, keep id 42, keep "#archive". -/
def scenarioPolicy : Retention :=
  { ids := [42], keywords := ["#archive"], maxAge := 24 * hourNs }

/-- Claim C3's evaluation instant: 48 hours after epoch. -/
def now48 : Int := 48 * hourNs

/-- Claim C3's item 1: id 1, 48h old, body "gone". -/
def item1 : Tweet := { id := 1, text := "gone", createdAt := Except.ok 0 }

/-- Claim C3's item 2: id 42, 48h old, body "gone". -/
def item42 : Tweet := { id := 42, text := "gone", createdAt := Except.ok 0 }

/-- Claim C3's item 3: id 3, 48h old, body "keep #archive". -/
def item3 : Tweet :=
  { id := 3, text := "keep #archive", createdAt := Except.ok 0 }

/-- Claim C3's item 4: id 4, 1h old, body "new". -/
def item4 : Tweet :=
  { id := 4, text := "new", createdAt := Except.ok (47 * hourNs) }

/-! ### Claim C5: configuration validation -/

/-- A configuration whose fields are all set but whose maximum age is a
negative duration (-1 hour). -/
def negAgeCfg : Config :=
  { username := "user", consumerKey := "ck", consumerSecret := "cs",
    oauthToken := "ot", oauthTokenSecret := "os",
    retention := { ids := [], keywords := [], maxAge := -hourNs },
    logLevel := "info" }

/-- C5 counterexample: validation does not reject every configuration whose
maximum-age duration fails to be strictly positive — a configuration with
maxAge = -1h (not > 0) is accepted (`validate` returns no error). -/
theorem validate_negative_max_age_cex :
    negAgeCfg.retention.maxAge = -3600000000000 ∧
    negAgeCfg.validate = none :=
  ⟨rfl, rfl⟩

/-- C5 (amended): validation succeeds exactly when the username, the four
credential strings are all non-empty and the maximum age is non-zero; a
negative maximum age is accepted, only zero is rejected. -/
theorem validate_accepts_iff (cfg : Config) :
    cfg.validate = none ↔
      (cfg.username ≠ "" ∧ cfg.consumerKey ≠ "" ∧ cfg.consumerSecret ≠ "" ∧
       cfg.oauthToken ≠ "" ∧ cfg.oauthTokenSecret ≠ "" ∧
       cfg.retention.maxAge ≠ 0) := by
  unfold Config.validate
  split_ifs with h1 h2 h3 h4 h5 h6 <;> simp_all [beq_iff_eq]

/-- C5 witness: the amended validation characterisation evaluated at the
concrete configuration `negAgeCfg`. -/
theorem validate_accepts_iff_witness :
    negAgeCfg.validate = none ↔
      (negAgeCfg.username ≠ "" ∧ negAgeCfg.consumerKey ≠ "" ∧
       negAgeCfg.consumerSecret ≠ "" ∧ negAgeCfg.oauthToken ≠ "" ∧
       negAgeCfg.oauthTokenSecret ≠ "" ∧ negAgeCfg.retention.maxAge ≠ 0) :=
  validate_accepts_iff negAgeCfg

/-! ### Claim C6: backoff contract -/

/-- The parse-failure message `backOff` returns when the
`X-Rate-Limit-Reset` header is missing or not an integer. -/
def resetParseErr : String :=
  "strconv.Atoi: parsing X-Rate-Limit-Reset: invalid syntax"

/-- C6: with reset header "5" the backoff step sleeps 5 seconds and returns
without error; in general a header parsing to `n ≥ 0` (with non-overflowing
nanosecond conversion) sleeps `n` seconds; a missing or non-integer header
performs no sleep and returns the parse error, which the fetch step stores
as `failed to back off` and surfaces by returning `false`. -/
theorem backOff_contract :
    (backOff [("X-Rate-Limit-Reset", "5")] = Except.ok (5 * nsPerSecond) ∧
     sleptFor (5 * nsPerSecond) = 5 * nsPerSecond) ∧
    (∀ (h : List (String × String)) (n : Int),
      atoi (headerGet h "X-Rate-Limit-Reset") = some n → 0 ≤ n →
      n * nsPerSecond ≤ 2 ^ 63 - 1 →
      backOff h = Except.ok (n * nsPerSecond) ∧
      sleptFor (n * nsPerSecond) = n * nsPerSecond) ∧
    (∀ h : List (String × String),
      atoi (headerGet h "X-Rate-Limit-Reset") = none →
      backOff h = Except.error resetParseErr) ∧
    (∀ (f : FetcherState) (r : APIResult) (e : String),
      r.err = some e → r.resp.statusCode = 429 →
      atoi (headerGet r.resp.header "X-Rate-Limit-Reset") = none →
      (tweetFetcherFetch f r).2 = false ∧
      (tweetFetcherFetch f r).1.err
        = some ("failed to back off: " ++ resetParseErr)) := by
  refine ⟨⟨rfl, rfl⟩, ?_, ?_, ?_⟩
  · intro h n hn hn0 hhi
    have h0 : (0 : Int) ≤ n * nsPerSecond :=
      mul_nonneg hn0 (by decide)
    have hlo : -(2 ^ 63) ≤ n * nsPerSecond := by omega
    constructor
    · unfold backOff
      rw [hn]
      show Except.ok (int64wrap (n * nsPerSecond)) = Except.ok (n * nsPerSecond)
      rw [int64wrap_eq_self hlo hhi]
    · unfold sleptFor
      exact max_eq_left h0
  · intro h hn
    unfold backOff
    rw [hn]
    rfl
  · intro f r e herr hst hparse
    have hbo : backOff r.resp.header = Except.error resetParseErr := by
      unfold backOff
      rw [hparse]
      rfl
    simp [tweetFetcherFetch, herr, hst, hbo]

/-- C6 witness: the backoff contract at the concrete header value "5" and
at the empty header set. -/
theorem backOff_contract_witness :
    (backOff [("X-Rate-Limit-Reset", "5")] = Except.ok (5 * nsPerSecond) ∧
     sleptFor (5 * nsPerSecond) = 5 * nsPerSecond) ∧
    backOff [] = Except.error resetParseErr :=
  ⟨backOff_contract.2.1 [("X-Rate-Limit-Reset", "5")] 5 (by decide) (by decide)
      (by decide),
   backOff_contract.2.2.1 [] (by decide)⟩

/-! ### Claim C9: empty kept keyword keeps everything -/

/-- C9: `parseKeepKeywords "a,,b"` contains the empty string, and a policy
whose keyword list contains the empty string never evicts any item: every
body contains the empty substring, so the keyword rule keeps every item
that reaches it, and `isTombstoned` never returns the evict decision. -/
theorem empty_keyword_never_evicts :
    ("" ∈ parseKeepKeywords "a,,b") ∧
    (∀ r : Retention, "" ∈ r.keywords →
      ∀ (t : Tweet) (now : Int) (b : Bool),
        r.isTombstoned t now = Except.ok b → b = false) := by
  constructor
  · decide
  · intro r hmem t now b hb
    have hany : r.keywords.any (fun keyword => strContains t.text keyword)
        = true :=
      List.any_eq_true.mpr ⟨"", hmem, strContains_empty t.text⟩
    unfold Retention.isTombstoned at hb
    cases hct : t.createdAt with
    | error e => rw [hct] at hb; cases hb
    | ok ct =>
      rw [hct] at hb
      simp only [hany, if_true] at hb
      split_ifs at hb <;> · injection hb with hb'; exact hb'.symm

/-- C9 witness: the empty-keyword property applied to a concrete policy
and a concrete 48-hour-old item with no matching id. -/
theorem empty_keyword_never_evicts_witness :
    ("" ∈ parseKeepKeywords "a,,b") ∧ (false = false) :=
  ⟨empty_keyword_never_evicts.1,
   empty_keyword_never_evicts.2
     { ids := [], keywords := [""], maxAge := 24 * hourNs } (by decide)
     item1 now48 false rfl⟩

/-! ### Claim C10: zero and negative reset values -/

/-- C10 counterexample: the reset value -10000000000 parses and is
accepted (nil return), but its nanosecond conversion underflows `int64`
and wraps to a large positive duration, so the sleep is not "no time". -/
theorem backOff_negative_reset_overflow_cex :
    atoi "-10000000000" = some (-10000000000) ∧
    backOff [("X-Rate-Limit-Reset", "-10000000000")]
      = Except.ok 8446744073709551616 ∧
    sleptFor 8446744073709551616 = 8446744073709551616 ∧
    (8446744073709551616 : Int) ≠ 0 := by
  refine ⟨rfl, rfl, rfl, by decide⟩

/-- C10 (amended): every header value that parses as a decimal integer is
accepted by the backoff step with a nil return, including zero and negative
values; a zero or negative value sleeps no time provided its
second-to-nanosecond conversion does not underflow `int64`
(reset ≥ -9223372036), while more negative values wrap around and can
produce a positive sleep. -/
theorem backOff_accepts_any_integer (h : List (String × String)) (n : Int)
    (hn : atoi (headerGet h "X-Rate-Limit-Reset") = some n) :
    backOff h = Except.ok (int64wrap (n * nsPerSecond)) ∧
    (n ≤ 0 → -(2 ^ 63) ≤ n * nsPerSecond →
      sleptFor (int64wrap (n * nsPerSecond)) = 0) := by
  constructor
  · unfold backOff
    rw [hn]
  · intro hneg hlo
    have hns : nsPerSecond = 1000000000 := rfl
    have hhi : n * nsPerSecond ≤ 2 ^ 63 - 1 := by rw [hns]; omega
    have hle : n * nsPerSecond ≤ 0 := by rw [hns]; omega
    rw [int64wrap_eq_self hlo hhi]
    unfold sleptFor
    exact max_eq_right hle

/-- C10 witness: the amended backoff acceptance at the concrete reset
value "-5". -/
theorem backOff_accepts_any_integer_witness :
    backOff [("X-Rate-Limit-Reset", "-5")]
      = Except.ok (int64wrap (-5 * nsPerSecond)) ∧
    sleptFor (int64wrap (-5 * nsPerSecond)) = 0 :=
  ⟨(backOff_accepts_any_integer [("X-Rate-Limit-Reset", "-5")] (-5)
      (by decide)).1,
   (backOff_accepts_any_integer [("X-Rate-Limit-Reset", "-5")] (-5)
      (by decide)).2 (by decide) (by decide)⟩

/-! ### Claim C3: the retention decision against the reference -/

/-- C3: wherever the age computation stays inside the `int64` duration
range (every realistic pair of instants), `isTombstoned` agrees with the
reference decision `decideSpec` — keep when younger than maxAge, else keep
on a kept id, else keep on a kept-keyword substring, else evict — and the
spec's four-item scenario decides to [evict, keep, keep, keep]. -/
theorem retention_matches_reference :
    (∀ (r : Retention) (t : Tweet) (now ct : Int),
      t.createdAt = Except.ok ct →
      -(2 ^ 63) ≤ now - ct → now - ct ≤ 2 ^ 63 - 1 →
      ((r.isTombstoned t now = Except.ok true ↔
        decideSpec r.maxAge r.ids r.keywords t.id ct now t.text
          = Decision.evict) ∧
       (r.isTombstoned t now = Except.ok false ↔
        decideSpec r.maxAge r.ids r.keywords t.id ct now t.text
          = Decision.keep))) ∧
    scenarioPolicy.isTombstoned item1 now48 = Except.ok true ∧
    scenarioPolicy.isTombstoned item42 now48 = Except.ok false ∧
    scenarioPolicy.isTombstoned item3 now48 = Except.ok false ∧
    scenarioPolicy.isTombstoned item4 now48 = Except.ok false ∧
    decideSpec scenarioPolicy.maxAge scenarioPolicy.ids
      scenarioPolicy.keywords item1.id 0 now48 item1.text = Decision.evict ∧
    decideSpec scenarioPolicy.maxAge scenarioPolicy.ids
      scenarioPolicy.keywords item42.id 0 now48 item42.text = Decision.keep ∧
    decideSpec scenarioPolicy.maxAge scenarioPolicy.ids
      scenarioPolicy.keywords item3.id 0 now48 item3.text = Decision.keep ∧
    decideSpec scenarioPolicy.maxAge scenarioPolicy.ids
      scenarioPolicy.keywords item4.id (47 * hourNs) now48 item4.text
      = Decision.keep := by
  refine ⟨?_, rfl, rfl, rfl, rfl, by decide, by decide, by decide, by decide⟩
  intro r t now ct hct hlo hhi
  have hids : ((r.ids.any fun id => id == t.id) = true) ↔ t.id ∈ r.ids := by
    constructor
    · intro h
      rcases List.any_eq_true.mp h with ⟨x, hx, hxe⟩
      rw [beq_iff_eq] at hxe
      exact hxe ▸ hx
    · intro h
      exact List.any_eq_true.mpr ⟨t.id, h, beq_self_eq_true t.id⟩
  simp only [Retention.isTombstoned, decideSpec, hct,
    int64sat_eq_self hlo hhi, hids]
  split_ifs <;> simp

/-- C3 witness: the decision/reference agreement evaluated at the concrete
scenario policy and item 1 (48 hours old, body "gone"). -/
theorem retention_matches_reference_witness :
    (scenarioPolicy.isTombstoned item1 now48 = Except.ok true ↔
      decideSpec scenarioPolicy.maxAge scenarioPolicy.ids
        scenarioPolicy.keywords item1.id 0 now48 item1.text
        = Decision.evict) ∧
    (scenarioPolicy.isTombstoned item1 now48 = Except.ok false ↔
      decideSpec scenarioPolicy.maxAge scenarioPolicy.ids
        scenarioPolicy.keywords item1.id 0 now48 item1.text
        = Decision.keep) :=
  retention_matches_reference.1 scenarioPolicy item1 now48 0 rfl (by decide)
    (by decide)

/-! ### Claim C4: cursor update -/

/-- A successful batch whose ids are in ascending order [5, 9]. -/
def batch59 : APIResult :=
  { tweets := [{ id := 5, text := "", createdAt := Except.ok 0 },
               { id := 9, text := "", createdAt := Except.ok 0 }],
    resp := okResp, err := none }

/-- C4 counterexample: on a successful non-empty batch with ids [5, 9] the
cursor becomes 8 — the last identifier minus one — not the smallest
identifier minus one, which would be 4. -/
theorem cursor_not_min_cex :
    (tweetFetcherFetch initFetcher batch59).2 = true ∧
    (tweetFetcherFetch initFetcher batch59).1.maxID = 8 ∧
    batch59.tweets.map Tweet.id = [5, 9] ∧
    (8 : Int) ≠ 5 - 1 :=
  ⟨rfl, rfl, rfl, by decide⟩

/-- C4 (amended): a successful fetch with a non-empty batch returns true
and sets the cursor to the batch's last identifier minus one (for both
fetchers); the last identifier is the smallest one whenever the batch is
sorted by nonincreasing id, as the API returns pages; and when the ids are
non-negative `int64` values at most the current cursor, the cursor
strictly decreases. -/
theorem cursor_last_minus_one (f : FetcherState) (r : APIResult) (t : Tweet)
    (hok : r.err = none) (hlast : r.tweets.getLast? = some t) :
    ((tweetFetcherFetch f r).2 = true ∧
     (tweetFetcherFetch f r).1.maxID = int64wrap (t.id - 1)) ∧
    ((favoriteFetcherFetch f r).2 = true ∧
     (favoriteFetcherFetch f r).1.maxID = int64wrap (t.id - 1)) ∧
    (r.tweets.Pairwise (fun a b => b.id ≤ a.id) →
      ∀ u ∈ r.tweets, t.id ≤ u.id) ∧
    (0 ≤ t.id → t.id ≤ f.maxID → f.maxID ≤ 2 ^ 63 - 1 →
      (tweetFetcherFetch f r).1.maxID < f.maxID) := by
  have htw : tweetFetcherFetch f r
      = ({ maxID := int64wrap (t.id - 1), tweets := r.tweets,
           err := f.err }, true) := by
    simp [tweetFetcherFetch, hok, hlast]
  have hfav : favoriteFetcherFetch f r
      = ({ maxID := int64wrap (t.id - 1), tweets := r.tweets,
           err := f.err }, true) := by
    simp [favoriteFetcherFetch, hok, hlast]
  refine ⟨⟨by rw [htw], by rw [htw]⟩, ⟨by rw [hfav], by rw [hfav]⟩,
    fun hp => getLast_id_min hp hlast, ?_⟩
  intro h0 hle hcur
  rw [htw]
  show int64wrap (t.id - 1) < f.maxID
  rw [int64wrap_eq_self (by omega) (by omega)]
  omega

/-- A fetcher state whose cursor is 100, for the C4 witness. -/
def cursor100 : FetcherState := { maxID := 100, tweets := [], err := none }

/-- The tweet with id 5 appearing last in the C4 witness batch. -/
def tweet5 : Tweet := { id := 5, text := "", createdAt := Except.ok 0 }

/-- A successful batch with descending ids [9, 5]. -/
def batch95 : APIResult :=
  { tweets := [{ id := 9, text := "", createdAt := Except.ok 0 }, tweet5],
    resp := okResp, err := none }

/-- C4 witness: the amended cursor update evaluated on the descending
batch [9, 5] against a cursor of 100. -/
theorem cursor_last_minus_one_witness :
    ((tweetFetcherFetch cursor100 batch95).2 = true ∧
     (tweetFetcherFetch cursor100 batch95).1.maxID
       = int64wrap (tweet5.id - 1)) ∧
    (tweetFetcherFetch cursor100 batch95).1.maxID < cursor100.maxID :=
  ⟨(cursor_last_minus_one cursor100 batch95 tweet5 rfl rfl).1,
   (cursor_last_minus_one cursor100 batch95 tweet5 rfl rfl).2.2.2
     (by decide) (by decide) (by decide)⟩

/-! ### Claim C7: pagination termination -/

/-- A tweet with the given id, empty body and epoch timestamp, for the
pagination fixtures. -/
def mkTweet (i : Int) : Tweet :=
  { id := i, text := "", createdAt := Except.ok 0 }

/-- `n` tweets with ids descending one by one from `top`. -/
def descTweets (top : Int) (n : Nat) : List Tweet :=
  (List.range n).map (fun k => mkTweet (top - k))

/-- A successful page (HTTP 200, no error) holding the given tweets. -/
def okPage (ts : List Tweet) : APIResult :=
  { tweets := ts, resp := okResp, err := none }

/-- Page 1 of the C7 scenario: 200 tweets, ids 1000 down to 801. -/
def page1 : APIResult := okPage (descTweets 1000 200)

/-- Page 2 of the C7 scenario: 200 tweets, ids 800 down to 601. -/
def page2 : APIResult := okPage (descTweets 800 200)

/-- Page 3 of the C7 scenario: 37 tweets, ids 600 down to 564. -/
def page3 : APIResult := okPage (descTweets 600 37)

/-- Page 4 of the C7 scenario: a successful empty page. -/
def page4 : APIResult := okPage []

/-- Fetcher state after the first C7 fetch. -/
def st1 : FetcherState := (tweetFetcherFetch initFetcher page1).1

/-- Fetcher state after the second C7 fetch. -/
def st2 : FetcherState := (tweetFetcherFetch st1 page2).1

/-- Fetcher state after the third C7 fetch. -/
def st3 : FetcherState := (tweetFetcherFetch st2 page3).1

/-- C7: on successful pages of sizes [200, 200, 37, 0] the first three
fetch calls return true moving the cursor strictly downward
(800, 600, 563) and the fourth returns false with no stored error; in
general a successful fetch returns false exactly on an empty batch, and an
empty successful batch leaves the stored error untouched. -/
theorem pagination_termination :
    ((tweetFetcherFetch initFetcher page1).2 = true ∧ st1.maxID = 800 ∧
     (tweetFetcherFetch st1 page2).2 = true ∧ st2.maxID = 600 ∧
     (tweetFetcherFetch st2 page3).2 = true ∧ st3.maxID = 563 ∧
     (563 : Int) < 600 ∧ (600 : Int) < 800 ∧
     (tweetFetcherFetch st3 page4).2 = false ∧
     (tweetFetcherFetch st3 page4).1.err = none) ∧
    (∀ (f : FetcherState) (r : APIResult), r.err = none →
      ((tweetFetcherFetch f r).2 = false ↔ r.tweets = [])) ∧
    (∀ (f : FetcherState) (r : APIResult), r.err = none → r.tweets = [] →
      (tweetFetcherFetch f r).2 = false ∧
      (tweetFetcherFetch f r).1.err = f.err) := by
  refine ⟨⟨rfl, rfl, rfl, rfl, rfl, rfl, by decide, by decide, rfl, rfl⟩,
    ?_, ?_⟩
  · intro f r hok
    cases hg : r.tweets.getLast? with
    | none =>
      have hnil : r.tweets = [] := List.getLast?_eq_none_iff.mp hg
      simp [tweetFetcherFetch, hok, hg, hnil]
    | some t =>
      have hne : r.tweets ≠ [] := by
        intro hnil
        rw [List.getLast?_eq_none_iff.mpr hnil] at hg
        cases hg
      simp [tweetFetcherFetch, hok, hg, hne]
  · intro f r hok hnil
    simp [tweetFetcherFetch, hok, hnil]

/-- C7 witness: the empty-success characterisation evaluated at the third
scenario state and the empty fourth page. -/
theorem pagination_termination_witness :
    ((tweetFetcherFetch st3 page4).2 = false ↔ page4.tweets = []) ∧
    (tweetFetcherFetch st3 page4).2 = false ∧
    (tweetFetcherFetch st3 page4).1.err = st3.err :=
  ⟨pagination_termination.2.1 st3 page4 rfl,
   pagination_termination.2.2 st3 page4 rfl rfl⟩

/-! ### Claim C8: decision fails iff the timestamp fails to parse -/

/-- C8: `isTombstoned` fails exactly when the item's creation timestamp
failed to parse; on a parsed timestamp it returns a decision with no
error; on a parse failure the destroyer propagates the error and the run
aborts with `failed to delete` instead of skipping the item. -/
theorem decision_error_iff_parse_failure :
    (∀ (r : Retention) (t : Tweet) (now : Int),
      ((∃ e, r.isTombstoned t now = Except.error e) ↔
        (∃ e, t.createdAt = Except.error e)) ∧
      (∀ ct, t.createdAt = Except.ok ct →
        ∃ b, r.isTombstoned t now = Except.ok b) ∧
      (∀ e, t.createdAt = Except.error e →
        r.isTombstoned t now = Except.error e ∧
        (∀ dr, destroyTweet r now t dr = Except.error e ∧
          destroyFavorite r now t dr = Except.error e))) ∧
    (∀ (ret : Retention) (now : Int) (del fav : Int → DestroyResult)
        (scr : List APIResult) (t : Tweet) (e : String),
      t.createdAt = Except.error e →
      runModel ret now del fav (okPage [t] :: scr) []
        = Except.error ("failed to delete: " ++ e)) := by
  constructor
  · intro r t now
    cases hct : t.createdAt with
    | error e =>
      have hiso : r.isTombstoned t now = Except.error e := by
        unfold Retention.isTombstoned
        rw [hct]
      refine ⟨⟨fun _ => ⟨e, rfl⟩, fun _ => ⟨e, hiso⟩⟩, ?_, ?_⟩
      · intro ct hok
        cases hok
      · intro e' he'
        injection he' with he'
        subst he'
        refine ⟨hiso, fun dr => ⟨?_, ?_⟩⟩
        · unfold destroyTweet
          rw [hiso]
        · unfold destroyFavorite
          rw [hiso]
    | ok ct =>
      have hb : ∃ b, r.isTombstoned t now = Except.ok b := by
        unfold Retention.isTombstoned
        rw [hct]
        dsimp only
        split_ifs <;> exact ⟨_, rfl⟩
      refine ⟨⟨?_, ?_⟩, fun ct' _ => hb, ?_⟩
      · rintro ⟨e, herr⟩
        rcases hb with ⟨b, hok⟩
        rw [hok] at herr
        cases herr
      · rintro ⟨e, herr⟩
        cases herr
      · intro e he
        cases he
  · intro ret now del fav scr t e hcte
    have hiso : ret.isTombstoned t now = Except.error e := by
      unfold Retention.isTombstoned
      rw [hcte]
    have hdt : destroyTweet ret now t (del t.id) = Except.error e := by
      unfold destroyTweet
      rw [hiso]
    simp [runModel, tweetLoop, tweetFetcherFetch, okPage, okResp,
      initFetcher, processTweets, hdt]

/-- An item whose creation timestamp fails to parse. -/
def badTweet : Tweet :=
  { id := 1, text := "", createdAt := Except.error "parse fail" }

/-- C8 witness: the parse-failure propagation evaluated at a concrete
unparseable item, through the decision, the destroyer and the run. -/
theorem decision_error_iff_parse_failure_witness :
    scenarioPolicy.isTombstoned badTweet now48
      = Except.error "parse fail" ∧
    runModel scenarioPolicy now48 okDelete okDelete [okPage [badTweet]] []
      = Except.error ("failed to delete: " ++ "parse fail") :=
  ⟨((decision_error_iff_parse_failure.1 scenarioPolicy badTweet now48).2.2
      "parse fail" rfl).1,
   decision_error_iff_parse_failure.2 scenarioPolicy now48 okDelete okDelete
      [] badTweet "parse fail" rfl⟩

/-! ### Claim C2: delete failure handling in the destroyer -/

/-- A rate-limited delete response with reset header "5". -/
def rlDestroy : DestroyResult :=
  { resp := { statusCode := 429, header := [("X-Rate-Limit-Reset", "5")] },
    err := some "rate limited" }

/-- An old evicted tweet: 48 hours old under the 24-hour scenario policy,
id and body matching no keep rule. -/
def oldTweet : Tweet := { id := 7, text := "gone", createdAt := Except.ok 0 }

/-- C2 counterexample: for an evicted item whose delete call answers with a
rate-limit response (reset header "5"), the destroyer returns success after
the backoff sleep — not an error — so remaining item processing is NOT
aborted. -/
theorem destroy_rate_limit_no_abort_cex :
    scenarioPolicy.isTombstoned oldTweet now48 = Except.ok true ∧
    destroyTweet scenarioPolicy now48 oldTweet rlDestroy = Except.ok () ∧
    destroyFavorite scenarioPolicy now48 oldTweet rlDestroy
      = Except.ok () :=
  ⟨rfl, rfl, rfl⟩

/-- C2 (amended): for an evicted item whose delete call fails, a rate-limit
response with a parseable reset header makes the destroyer back off and
return nil — processing of the remaining items continues and the item is
silently dropped without deletion confirmation; a rate-limit response with
an unparseable reset header returns a `failed to back off` error; every
non-rate-limit delete failure returns the error immediately. -/
theorem destroy_error_handling (ret : Retention) (now : Int) (t : Tweet)
    (dr : DestroyResult) (e : String)
    (hevict : ret.isTombstoned t now = Except.ok true)
    (herr : dr.err = some e) :
    (dr.resp.statusCode = 429 →
      (∀ d, backOff dr.resp.header = Except.ok d →
        destroyTweet ret now t dr = Except.ok () ∧
        destroyFavorite ret now t dr = Except.ok ()) ∧
      (∀ be, backOff dr.resp.header = Except.error be →
        destroyTweet ret now t dr
          = Except.error ("failed to back off: " ++ be) ∧
        destroyFavorite ret now t dr
          = Except.error ("failed to back off: " ++ be))) ∧
    (dr.resp.statusCode ≠ 429 →
      destroyTweet ret now t dr = Except.error e ∧
      destroyFavorite ret now t dr = Except.error e) := by
  constructor
  · intro hst
    constructor
    · intro d hbo
      constructor <;>
        simp [destroyTweet, destroyFavorite, hevict, herr, hst, hbo]
    · intro be hbo
      constructor <;>
        simp [destroyTweet, destroyFavorite, hevict, herr, hst, hbo]
  · intro hst
    have hbeq : (dr.resp.statusCode == 429) = false :=
      beq_eq_false_iff_ne.mpr hst
    constructor <;>
      simp [destroyTweet, destroyFavorite, hevict, herr, hbeq]

/-- A non-rate-limit failing delete response (HTTP 500, error "boom"). -/
def delErr500 : DestroyResult :=
  { resp := { statusCode := 500, header := [] }, err := some "boom" }

/-- C2 witness: the amended delete failure handling evaluated on the
concrete evicted item and the concrete HTTP 500 delete failure. -/
theorem destroy_error_handling_witness :
    destroyTweet scenarioPolicy now48 oldTweet delErr500
      = Except.error "boom" ∧
    destroyFavorite scenarioPolicy now48 oldTweet delErr500
      = Except.error "boom" :=
  (destroy_error_handling scenarioPolicy now48 oldTweet delErr500 "boom"
    rfl rfl).2 (by decide)

/-! ### Claim C1: fetch errors and the run driver -/

/-- The failing fetch response for C1: HTTP 500, error "boom". -/
def fetchErr500 : APIResult :=
  { tweets := [], resp := { statusCode := 500, header := [] },
    err := some "boom" }

/-- C1 (code bug): a fetch step failing with a non-rate-limit error does
record the error and return false — but `run` checks the stored error only
inside the loop body, which is skipped exactly when `fetch` returns false,
so the loop ends silently: with the first tweet fetch failing (HTTP 500,
"boom") the fetcher stores "failed to fetch tweets: boom", yet the tweet
loop completes without an error and the whole run returns success,
swallowing the stored error instead of terminating the run with it. -/
theorem run_swallows_nonratelimit_fetch_error :
    (tweetFetcherFetch initFetcher fetchErr500).2 = false ∧
    (tweetFetcherFetch initFetcher fetchErr500).1.err
      = some "failed to fetch tweets: boom" ∧
    tweetLoop scenarioPolicy now48 okDelete [fetchErr500] initFetcher
      = Except.ok (tweetFetcherFetch initFetcher fetchErr500).1 ∧
    runModel scenarioPolicy now48 okDelete okDelete [fetchErr500] []
      = Except.ok () :=
  ⟨rfl, rfl, rfl, rfl⟩

end TPrune
